import Mathlib

/-!
Shallow embedding of `jpeg_date.py` (JPEG date modifier).

The Python program edits the capture date embedded in JPEG EXIF metadata:
it substitutes the year (and optionally the month) while keeping day and
time of day, synchronises the file modification timestamp, classifies and
discovers JPEG files in folders, and batch-processes folders with optional
dry-run mode.

Modelling conventions:
* Python `datetime` values are a six-field record of naturals; the
  constructor validation that `datetime.replace` performs is `mkValid`,
  which returns `none` exactly when CPython would raise `ValueError`.
* Filesystem reads are modelled by an explicit list of the files below a
  folder; filesystem mutations (`image.save`, piexif insertion,
  `os.utime`, `os.makedirs`) are recorded as an explicit effect trace
  instead of mutating state.
* `os.listdir` on a missing folder raises `FileNotFoundError`; `os.walk`
  with its default `onerror=None` silently yields nothing for a missing
  folder.  Both behaviours are part of the embedding.
-/

namespace JpegDate

/-- A calendar timestamp with one-second precision, as carried by Python
`datetime.datetime` (time zone and microseconds are never used by the
program). -/
structure DateTime where
  year : Nat
  month : Nat
  day : Nat
  hour : Nat
  minute : Nat
  second : Nat
deriving DecidableEq

/-- Gregorian leap-year test, as used by `datetime`. -/
def isLeapYear (y : Nat) : Bool :=
  (y % 4 == 0 && y % 100 != 0) || y % 400 == 0

/-- Number of days in a month of a given year (CPython `_days_in_month`). -/
def daysInMonth (y m : Nat) : Nat :=
  if m = 2 then (if isLeapYear y then 29 else 28)
  else if m = 4 ∨ m = 6 ∨ m = 9 ∨ m = 11 then 30
  else 31

/-- The validation performed by the CPython `datetime` constructor:
year in `MINYEAR..MAXYEAR`, month in `1..12`, day in `1..days_in_month`,
and time-of-day fields in range. -/
def validDateTime (dt : DateTime) : Bool :=
  1 ≤ dt.year && dt.year ≤ 9999 &&
  1 ≤ dt.month && dt.month ≤ 12 &&
  1 ≤ dt.day && dt.day ≤ daysInMonth dt.year dt.month &&
  dt.hour ≤ 23 && dt.minute ≤ 59 && dt.second ≤ 59

/-- Construct a `datetime`, failing (as CPython raises `ValueError`) when
the fields do not form a valid calendar timestamp. -/
def mkValid (dt : DateTime) : Option DateTime :=
  if validDateTime dt then some dt else none

/-- The date substitution at `jpeg_date.py:88-91`:
`current_datetime.replace(year=new_year, month=new_month)` when a month is
given, `current_datetime.replace(year=new_year)` otherwise.  `replace`
re-runs constructor validation, so an out-of-range result is `none`
(CPython raises `ValueError`, caught by the caller). -/
def transformDatetime (dt : DateTime) (newYear : Nat) (newMonth : Option Nat) :
    Option DateTime :=
  match newMonth with
  | some m => mkValid { dt with year := newYear, month := m }
  | none => mkValid { dt with year := newYear }

theorem mkValid_eq_some {dt dt' : DateTime} (h : mkValid dt = some dt') :
    dt' = dt ∧ validDateTime dt = true := by
  unfold mkValid at h
  by_cases hv : validDateTime dt = true
  · simp [hv] at h
    exact ⟨h.symm, hv⟩
  · simp [hv] at h

theorem mkValid_of_valid {dt : DateTime} (h : validDateTime dt = true) :
    mkValid dt = some dt := by
  simp [mkValid, h]

/-! ### EXIF datetime parsing (`datetime.strptime(value, "%Y:%m:%d %H:%M:%S")`) -/

/-- Split a character list at every occurrence of `sep` (the splitting done
by `strptime` when matching the literal separators of
`"%Y:%m:%d %H:%M:%S"`). -/
def splitOnChar (sep : Char) : List Char → List (List Char)
  | [] => [[]]
  | c :: rest =>
    let r := splitOnChar sep rest
    if c = sep then [] :: r
    else
      match r with
      | g :: gs => (c :: g) :: gs
      | [] => [[c]]

/-- Read a non-empty all-digit character group as a natural number;
`none` when the group is empty or contains a non-digit (where `strptime`
raises `ValueError`). -/
def digitsVal : List Char → Option Nat
  | [] => none
  | cs =>
    cs.foldl
      (fun acc c =>
        match acc with
        | none => none
        | some n => if c.isDigit then some (n * 10 + (c.toNat - 48)) else none)
      (some 0)

/-- `datetime.strptime(value, "%Y:%m:%d %H:%M:%S")` at `jpeg_date.py:56`:
the tag value must be date and time separated by a space, each
colon-separated digit groups, and the fields must form a valid calendar
timestamp; any failure raises `ValueError` (modelled as `none`). -/
def parseDatetime (s : String) : Option DateTime :=
  match splitOnChar ' ' s.data with
  | [datePart, timePart] =>
    match splitOnChar ':' datePart, splitOnChar ':' timePart with
    | [y, mo, d], [h, mi, se] =>
      match digitsVal y, digitsVal mo, digitsVal d,
          digitsVal h, digitsVal mi, digitsVal se with
      | some yv, some mov, some dv, some hv, some miv, some sev =>
        mkValid ⟨yv, mov, dv, hv, miv, sev⟩
      | _, _, _, _, _, _ => none
    | _, _ => none
  | _ => none

/-! ### File model and the metadata reader (`get_image_datetime`) -/

/-- The image format that PIL reports for an opened file. -/
inductive ImgFormat where
  | jpeg
  | other
deriving DecidableEq

/-- The observable state of one image file: whether opening and reading it
succeeds, the textual value of the EXIF `DateTime` tag when present, the
filesystem modification time (already converted to a local timestamp, as
`datetime.fromtimestamp(os.path.getmtime(...))` does), and the format PIL
reports. -/
structure FileState where
  readable : Bool
  exifDateTime : Option String
  mtime : DateTime
  format : ImgFormat
deriving DecidableEq

/-- The outcome of `get_image_datetime` together with the report it
prints: a parsed timestamp, the printed `"No DateTime found in EXIF data"`
report, or the printed `"Error reading image datetime: ..."` report for a
caught `OSError`/`ValueError`/`KeyError`. -/
inductive ReadResult where
  | found (dt : DateTime)
  | noField
  | readError
deriving DecidableEq

/-- The value the Python function actually returns to its caller: the
timestamp on success and `None` in both other cases. -/
def ReadResult.toOption : ReadResult → Option DateTime
  | .found dt => some dt
  | .noField => none
  | .readError => none

/-- `get_image_datetime` (`jpeg_date.py:46-62`): open the image, scan EXIF
for the `DateTime` tag and `strptime` its value; print a report and return
`None` when the tag is absent; catch `OSError`/`ValueError`/`KeyError`
(unreadable file, malformed value), print an error report, and return
`None`. -/
def get_image_datetime (st : FileState) : ReadResult :=
  if st.readable then
    match st.exifDateTime with
    | some v =>
      match parseDatetime v with
      | some dt => .found dt
      | none => .readError
    | none => .noField
  else .readError

/-! ### The date modifier (`modify_image_datetime`)

Filesystem mutations are recorded as an explicit effect trace: each
mutating library call of the Python code appends one effect. -/

/-- One filesystem mutation performed by the program:
`image.save(path, format="JPEG", quality=q)`, the piexif rewrite of the
three capture-datetime EXIF fields, `os.utime(path, (t, t))`, or
`os.makedirs(path, exist_ok=True)`. -/
inductive Effect where
  | save (path : String) (quality : Nat)
  | writeExif (path : String) (dt : DateTime)
  | utime (path : String) (dt : DateTime)
  | mkdirs (path : String)
deriving DecidableEq

/-- The body of `modify_image_datetime` once the source timestamp has been
chosen (`jpeg_date.py:88-121`): substitute year/month (a `ValueError`
from `replace` is caught and the function returns `False`); save the
image re-encoded at quality 95 and rewrite EXIF only when PIL reports
JPEG format (otherwise only a warning is printed); finally set the file
modification and access time and return `True` (a failed `os.utime` is
caught, printed, and `True` is still returned). -/
def modifyFrom (st : FileState) (imagePath : String) (src : DateTime)
    (newYear : Nat) (newMonth : Option Nat) (outputPath : Option String) :
    Bool × List Effect :=
  match transformDatetime src newYear newMonth with
  | none => (false, [])
  | some newDt =>
    let out := outputPath.getD imagePath
    if st.format = ImgFormat.jpeg then
      (true, [Effect.save out 95, Effect.writeExif out newDt, Effect.utime out newDt])
    else
      (true, [Effect.utime out newDt])

/-- `modify_image_datetime` (`jpeg_date.py:65-121`): open the image (an
`OSError` for a missing or unreadable file is caught and `False` is
returned); take the EXIF timestamp from `get_image_datetime`, falling back
to the filesystem modification time when it returned `None`; then proceed
as `modifyFrom`.  The first argument is the state of the file at
`imagePath`, `none` when no file exists there. -/
def modify_image_datetime (stOpt : Option FileState) (imagePath : String)
    (newYear : Nat) (newMonth : Option Nat) (outputPath : Option String) :
    Bool × List Effect :=
  match stOpt with
  | none => (false, [])
  | some st =>
    if st.readable then
      match (get_image_datetime st).toOption with
      | some dt => modifyFrom st imagePath dt newYear newMonth outputPath
      | none => modifyFrom st imagePath st.mtime newYear newMonth outputPath
    else (false, [])

/-! ### The file classifier (`is_jpeg_file`) -/

/-- The extension part returned by `os.path.splitext`: within the final
path component, leading dots do not begin an extension; otherwise the
extension starts at the last dot. -/
def splitextExt (p : String) : String :=
  let base := (p.data.reverse.takeWhile (fun c => c ≠ '/')).reverse
  let rest := base.dropWhile (fun c => c = '.')
  if rest.contains '.' then
    String.mk ('.' :: (rest.reverse.takeWhile (fun c => c ≠ '.')).reverse)
  else ""

/-- `is_jpeg_file` (`jpeg_date.py:150-153`): membership of the
`os.path.splitext` extension in the literal set
`{'.jpg', '.jpeg', '.JPG', '.JPEG'}`. -/
def is_jpeg_file (p : String) : Bool :=
  [".jpg", ".jpeg", ".JPG", ".JPEG"].contains (splitextExt p)

/-! ### File discovery (`find_jpeg_files`)

A folder that exists is modelled as the list of all plain files below it,
each carried with its path relative to the folder root (no leading
separator) and its observable state.  `os.listdir` plus the
`os.path.isfile` test sees exactly the files whose relative path has no
separator; `os.walk` enumerates all of them. -/

/-- `os.path.join` as used by the program (POSIX separator). -/
def joinPath (a b : String) : String := a ++ "/" ++ b

/-- The contents of an existing folder: every file below it, as a pair of
its relative path and its state. -/
def FolderFiles := List (String × FileState)

/-- Whether a relative path denotes a direct child of the folder root
(the files `os.listdir` shows that pass the `os.path.isfile` test). -/
def isDirectChild (rel : String) : Bool := !(rel.data.contains '/')

/-- The errors that can propagate out of the modelled functions:
`FileNotFoundError` from `os.listdir`, and the uncaught `ValueError`
that `datetime.replace` raises in the dry-run loop of `process_folder`. -/
inductive FsError where
  | notFound
  | valueError
deriving DecidableEq

deriving instance DecidableEq for Except

/-- Lexicographic comparison of character lists by Unicode code point,
with a proper prefix ordered first: Python string `<=`. -/
def lexLeB : List Char → List Char → Bool
  | [], _ => true
  | _ :: _, [] => false
  | a :: as, b :: bs =>
    if a.toNat < b.toNat then true
    else if b.toNat < a.toNat then false
    else lexLeB as bs

/-- Python string `<=` on paths. -/
def strLe (a b : String) : Bool := lexLeB a.data b.data

/-- Python `sorted` on the collected path strings: a stable sort by the
lexicographic string order (every stable sort produces the same list, so
it is modelled by insertion sort). -/
def sortStrings (l : List String) : List String :=
  l.insertionSort (fun a b => strLe a b = true)

/-- The full paths a discovery pass collects before filtering: all files
below the folder in recursive mode (`os.walk`), only the direct children
in non-recursive mode (`os.listdir` plus `os.path.isfile`). -/
def candidatePaths (folderPath : String) (files : FolderFiles)
    (recursive : Bool) : List String :=
  if recursive then files.map (fun pr => joinPath folderPath pr.1)
  else
    (files.filter (fun pr => isDirectChild pr.1)).map
      (fun pr => joinPath folderPath pr.1)

/-- `find_jpeg_files` (`jpeg_date.py:156-174`).  The folder argument is
`none` when `folder_path` does not exist.  Recursive mode collects
`os.walk` files; `os.walk` passes the scandir error of a missing folder to
its default `onerror=None`, so it yields nothing.  Non-recursive mode uses
`os.listdir`, which raises `FileNotFoundError` for a missing folder, and
keeps only plain files.  Collected paths are filtered by `is_jpeg_file`
and returned sorted. -/
def find_jpeg_files (folder : Option FolderFiles) (folderPath : String)
    (recursive : Bool) : Except FsError (List String) :=
  match folder, recursive with
  | none, true => Except.ok []
  | none, false => Except.error FsError.notFound
  | some files, _ =>
    Except.ok
      (sortStrings ((candidatePaths folderPath files recursive).filter is_jpeg_file))

/-! ### The batch orchestrator (`process_folder`) -/

/-- Look up the state of the file at a full path below the folder root
(what `Image.open`/`os.path.getmtime` observe when the batch loop hands
`modify_image_datetime` a discovered path). -/
def lookupFile (base : String) (files : FolderFiles) (target : String) :
    Option FileState :=
  (files.find? (fun pr => joinPath base pr.1 = target)).map (fun pr => pr.2)

/-- `os.path.basename` for POSIX paths. -/
def basename (p : String) : String :=
  String.mk ((p.data.reverse.takeWhile (fun c => c ≠ '/')).reverse)

/-- `os.path.dirname` for POSIX paths. -/
def dirname (p : String) : String :=
  String.mk ((p.data.reverse.dropWhile (fun c => c ≠ '/')).reverse.dropLast)

/-- `os.path.relpath(file_path, folder_path)` in the only shape the batch
loop uses: `file_path` lies strictly below `folder_path`. -/
def relPath (p base : String) : String :=
  String.mk (p.data.drop (base.data.length + 1))

/-- The output path computed in the batch loop (`jpeg_date.py:225-240`):
`None` (overwrite) without an output folder; below the output folder under
the relative subpath when recursive, under the plain basename
otherwise. -/
def outputPathFor (outputFolder : Option String) (folderPath filePath : String)
    (recursive : Bool) : Option String :=
  match outputFolder with
  | none => none
  | some ofo =>
    if recursive then some (joinPath ofo (relPath filePath folderPath))
    else some (joinPath ofo (basename filePath))

/-- The `os.makedirs(..., exist_ok=True)` calls of one loop iteration:
the output folder itself, plus the destination subdirectory in recursive
mode. -/
def mkdirEffects (outputFolder : Option String) (outPath : Option String)
    (recursive : Bool) : List Effect :=
  match outputFolder with
  | none => []
  | some ofo =>
    Effect.mkdirs ofo ::
      (if recursive then [Effect.mkdirs (dirname (outPath.getD ""))] else [])

/-- One iteration of the batch loop of `process_folder`
(`jpeg_date.py:221-254`): compute the output path, create output
directories when requested, run `modify_image_datetime`, and increment
the success counter on `True` and the error counter on `False`.  The
accumulator carries (successes, errors, effect trace so far). -/
def processStep (folder : Option FolderFiles) (folderPath : String)
    (newYear : Nat) (newMonth : Option Nat) (outputFolder : Option String)
    (recursive : Bool) (acc : Nat × Nat × List Effect) (fp : String) :
    Nat × Nat × List Effect :=
  let outPath := outputPathFor outputFolder folderPath fp recursive
  let dirEffs := mkdirEffects outputFolder outPath recursive
  let stOpt :=
    match folder with
    | some files => lookupFile folderPath files fp
    | none => none
  let r := modify_image_datetime stOpt fp newYear newMonth outPath
  if r.1 then (acc.1 + 1, acc.2.1, acc.2.2 ++ dirEffs ++ r.2)
  else (acc.1, acc.2.1 + 1, acc.2.2 ++ dirEffs ++ r.2)

/-- The dry-run loop of `process_folder` (`jpeg_date.py:204-214`): for
each discovered file it prints the name, reads the EXIF datetime (a
missing or unreadable file yields `None` inside `get_image_datetime`,
printing "No EXIF datetime found" here), and when a datetime was found it
recomputes `current_dt.replace(...)` with no surrounding `try`: an
invalid substitution raises an uncaught `ValueError` that aborts the
whole run.  The loop performs no filesystem mutation, so a crash
propagates before any effect. -/
def dryRunCheck (folder : Option FolderFiles) (folderPath : String)
    (newYear : Nat) (newMonth : Option Nat) : List String → Except FsError Unit
  | [] => Except.ok ()
  | fp :: rest =>
    let stOpt :=
      match folder with
      | some files => lookupFile folderPath files fp
      | none => none
    match stOpt with
    | none => dryRunCheck folder folderPath newYear newMonth rest
    | some st =>
      match (get_image_datetime st).toOption with
      | none => dryRunCheck folder folderPath newYear newMonth rest
      | some dt =>
        match transformDatetime dt newYear newMonth with
        | none => Except.error FsError.valueError
        | some _ => dryRunCheck folder folderPath newYear newMonth rest

/-- `process_folder` (`jpeg_date.py:177-261`): discover JPEG files
(a discovery error propagates); return `(0, 0, 0)` when nothing was
found; in dry-run mode run the read-only reporting loop — which can
crash with an uncaught `ValueError` on an invalid substitution — and
otherwise return `(0, 0, total)` with no effects; in normal mode run the
loop over the sorted files and return
`(success_count, error_count, total)` together with the trace of
filesystem mutations performed. -/
def process_folder (folder : Option FolderFiles) (folderPath : String)
    (newYear : Nat) (newMonth : Option Nat) (outputFolder : Option String)
    (recursive : Bool) (dryRun : Bool) :
    Except FsError ((Nat × Nat × Nat) × List Effect) :=
  match find_jpeg_files folder folderPath recursive with
  | Except.error e => Except.error e
  | Except.ok jpegFiles =>
    if jpegFiles.isEmpty then Except.ok ((0, 0, 0), [])
    else if dryRun then
      match dryRunCheck folder folderPath newYear newMonth jpegFiles with
      | Except.error e => Except.error e
      | Except.ok _ => Except.ok ((0, 0, jpegFiles.length), [])
    else
      let r := jpegFiles.foldl
        (processStep folder folderPath newYear newMonth outputFolder recursive)
        (0, 0, [])
      Except.ok ((r.1, r.2.1, jpegFiles.length), r.2.2)

/-! ### Concrete files and folders used as inputs for the scenarios -/

/-- A readable JPEG whose EXIF capture datetime is `2019:05:17 10:00:00`
(the scenario file of the spec). -/
def mayFile : FileState :=
  { readable := true, exifDateTime := some "2019:05:17 10:00:00",
    mtime := ⟨2018, 1, 2, 3, 4, 5⟩, format := ImgFormat.jpeg }

/-- A readable JPEG taken on the leap day `2020:02:29 11:30:00`. -/
def febFile : FileState :=
  { readable := true, exifDateTime := some "2020:02:29 11:30:00",
    mtime := ⟨2020, 1, 1, 0, 0, 0⟩, format := ImgFormat.jpeg }

/-- A readable JPEG whose EXIF block carries no `DateTime` tag. -/
def missingFieldFile : FileState :=
  { readable := true, exifDateTime := none,
    mtime := ⟨2019, 5, 17, 10, 0, 0⟩, format := ImgFormat.jpeg }

/-- A file that `Image.open`/reading raises `OSError` on. -/
def unreadableFile : FileState :=
  { readable := false, exifDateTime := some "2019:05:17 10:00:00",
    mtime := ⟨2019, 5, 17, 10, 0, 0⟩, format := ImgFormat.jpeg }

/-- A demonstration folder: two JPEGs directly inside it (one taken on a
leap day), one non-JPEG file, and one JPEG in a subfolder. -/
def demoFolder : FolderFiles :=
  [("b.jpg", mayFile), ("a.jpg", febFile), ("notes.txt", mayFile),
    ("sub/c.jpg", mayFile)]

/-! ### Helper lemmas on the lexicographic path order -/

theorem lexLeB_total : ∀ as bs : List Char,
    lexLeB as bs = true ∨ lexLeB bs as = true := by
  intro as
  induction as with
  | nil => intro bs; left; cases bs <;> rfl
  | cons a as ih =>
    intro bs
    cases bs with
    | nil => right; rfl
    | cons b bs =>
      by_cases hab : a.toNat < b.toNat
      · left; simp [lexLeB, hab]
      · by_cases hba : b.toNat < a.toNat
        · right; simp [lexLeB, hba]
        · rcases ih bs with h | h
          · left; simp [lexLeB, hab, hba, h]
          · right; simp [lexLeB, hab, hba, h]

theorem lexLeB_trans : ∀ as bs cs : List Char,
    lexLeB as bs = true → lexLeB bs cs = true → lexLeB as cs = true := by
  intro as
  induction as with
  | nil => intro bs cs h1 h2; cases cs <;> rfl
  | cons a as ih =>
    intro bs cs h1 h2
    cases bs with
    | nil => simp [lexLeB] at h1
    | cons b bs =>
      cases cs with
      | nil => simp [lexLeB] at h2
      | cons c cs =>
        simp only [lexLeB] at h1 h2 ⊢
        by_cases hab : a.toNat < b.toNat <;>
          by_cases hba : b.toNat < a.toNat <;>
          by_cases hbc : b.toNat < c.toNat <;>
          by_cases hcb : c.toNat < b.toNat <;>
          by_cases hac : a.toNat < c.toNat <;>
          by_cases hca : c.toNat < a.toNat <;>
          simp_all <;>
          first
          | omega
          | exact Or.inr (ih bs cs h1 h2)

theorem strLe_trans {a b c : String} (h1 : strLe a b = true)
    (h2 : strLe b c = true) : strLe a c = true :=
  lexLeB_trans a.data b.data c.data h1 h2

theorem strLe_total (a b : String) : strLe a b = true ∨ strLe b a = true :=
  lexLeB_total a.data b.data

/-! ### Claim theorems -/

/-- **C1**: whenever the substitution of `modify_image_datetime`
(lines 88-91) yields a valid calendar date, the transformed timestamp
keeps the day, hour, minute and second of the source exactly, sets the
year to the requested year, and sets the month to the requested month
when one is given and keeps the source month otherwise. -/
theorem transform_preserves_day_and_time (T : DateTime) (Y : Nat)
    (M : Option Nat) (T' : DateTime) (h : transformDatetime T Y M = some T') :
    T'.day = T.day ∧ T'.hour = T.hour ∧ T'.minute = T.minute ∧
      T'.second = T.second ∧ T'.year = Y ∧ T'.month = M.getD T.month := by
  cases M with
  | none =>
    simp only [transformDatetime] at h
    obtain ⟨hEq, -⟩ := mkValid_eq_some h
    subst hEq
    simp
  | some m =>
    simp only [transformDatetime] at h
    obtain ⟨hEq, -⟩ := mkValid_eq_some h
    subst hEq
    simp

theorem transform_preserves_day_and_time_witness :
    (⟨2023, 12, 17, 10, 0, 0⟩ : DateTime).day =
        (⟨2019, 5, 17, 10, 0, 0⟩ : DateTime).day ∧
      (⟨2023, 12, 17, 10, 0, 0⟩ : DateTime).hour =
        (⟨2019, 5, 17, 10, 0, 0⟩ : DateTime).hour ∧
      (⟨2023, 12, 17, 10, 0, 0⟩ : DateTime).minute =
        (⟨2019, 5, 17, 10, 0, 0⟩ : DateTime).minute ∧
      (⟨2023, 12, 17, 10, 0, 0⟩ : DateTime).second =
        (⟨2019, 5, 17, 10, 0, 0⟩ : DateTime).second ∧
      (⟨2023, 12, 17, 10, 0, 0⟩ : DateTime).year = 2023 ∧
      (⟨2023, 12, 17, 10, 0, 0⟩ : DateTime).month = (some 12).getD 5 :=
  transform_preserves_day_and_time ⟨2019, 5, 17, 10, 0, 0⟩ 2023 (some 12)
    ⟨2023, 12, 17, 10, 0, 0⟩ (by decide)

/-- **C2**: whenever the substitution succeeds, applying the same
substitution to its result gives the same result again:
`transform(transform(T, Y, M), Y, M) = transform(T, Y, M)`. -/
theorem transform_idempotent (T : DateTime) (Y : Nat) (M : Option Nat)
    (T' : DateTime) (h : transformDatetime T Y M = some T') :
    transformDatetime T' Y M = some T' := by
  cases M with
  | none =>
    simp only [transformDatetime] at h ⊢
    obtain ⟨hEq, hv⟩ := mkValid_eq_some h
    subst hEq
    exact mkValid_of_valid hv
  | some m =>
    simp only [transformDatetime] at h ⊢
    obtain ⟨hEq, hv⟩ := mkValid_eq_some h
    subst hEq
    exact mkValid_of_valid hv

theorem transform_idempotent_witness :
    transformDatetime ⟨2023, 12, 17, 10, 0, 0⟩ 2023 (some 12) =
      some ⟨2023, 12, 17, 10, 0, 0⟩ :=
  transform_idempotent ⟨2019, 5, 17, 10, 0, 0⟩ 2023 (some 12)
    ⟨2023, 12, 17, 10, 0, 0⟩ (by decide)

/-- **C3**: when the source day does not exist in the target year/month,
the substitution produces no timestamp (CPython raises `ValueError`, the
error class of the invalid-date failure, which `modify_image_datetime`
catches and turns into a `False` result); and in a batch run over
`demoFolder` with target February 2023, the leap-day file `a.jpg` is
counted as failed while processing continues: the next file `b.jpg` is
still processed and written, giving counts (1 success, 1 failure, 2
files). -/
theorem invalid_day_fails_and_batch_continues (T : DateTime) (Y m : Nat)
    (h : daysInMonth Y m < T.day) :
    transformDatetime T Y (some m) = none ∧
    process_folder (some demoFolder) "photos" 2023 (some 2) none false false =
      Except.ok ((1, 1, 2),
        [Effect.save "photos/b.jpg" 95,
          Effect.writeExif "photos/b.jpg" ⟨2023, 2, 17, 10, 0, 0⟩,
          Effect.utime "photos/b.jpg" ⟨2023, 2, 17, 10, 0, 0⟩]) := by
  constructor
  · have hv : validDateTime { T with year := Y, month := m } = false := by
      simp only [validDateTime]
      simp only [Bool.and_eq_false_iff, decide_eq_false_iff_not, not_le]
      tauto
    simp [transformDatetime, mkValid, hv]
  · decide

/-- **C4**: for a readable file whose EXIF metadata has no `DateTime`
tag, `get_image_datetime` takes the printed-report outcome
`"No DateTime found in EXIF data"` (not the error outcome) and returns
`None` to its caller, and `modify_image_datetime` then proceeds with the
file's filesystem modification time as the source timestamp of the
transform. -/
theorem reader_no_field_falls_back_to_mtime (st : FileState)
    (hr : st.readable = true) (he : st.exifDateTime = none) :
    get_image_datetime st = ReadResult.noField ∧
    (get_image_datetime st).toOption = none ∧
    ∀ (p : String) (Y : Nat) (M : Option Nat) (o : Option String),
      modify_image_datetime (some st) p Y M o = modifyFrom st p st.mtime Y M o := by
  have hg : get_image_datetime st = ReadResult.noField := by
    simp [get_image_datetime, hr, he]
  refine ⟨hg, by simp [hg, ReadResult.toOption], ?_⟩
  intro p Y M o
  simp [modify_image_datetime, hr, hg, ReadResult.toOption]

theorem reader_no_field_falls_back_to_mtime_witness :
    get_image_datetime missingFieldFile = ReadResult.noField ∧
    (get_image_datetime missingFieldFile).toOption = none ∧
    ∀ (p : String) (Y : Nat) (M : Option Nat) (o : Option String),
      modify_image_datetime (some missingFieldFile) p Y M o =
        modifyFrom missingFieldFile p missingFieldFile.mtime Y M o :=
  reader_no_field_falls_back_to_mtime missingFieldFile rfl rfl

/-- **C5** (counterexample): for the unreadable file, the reader does not
surface a hard failure: it returns exactly the same value (`None`) to its
caller as it returns for a readable file with no datetime field, so the
two situations are indistinguishable for the caller. -/
theorem reader_unreadable_same_as_missing_cex :
    (get_image_datetime unreadableFile).toOption =
      (get_image_datetime missingFieldFile).toOption ∧
    (get_image_datetime unreadableFile).toOption = none := by decide

/-- **C5** (amended): for every unreadable or corrupt file, the reader
catches the I/O error, prints an error report, and returns `None` to its
caller — no `IOError` propagates, and the returned value is exactly the
one a readable file with an absent `DateTime` field produces, so the two
situations are indistinguishable for the caller. -/
theorem reader_unreadable_returns_none (st : FileState)
    (hr : st.readable = false) :
    get_image_datetime st = ReadResult.readError ∧
    (get_image_datetime st).toOption = none ∧
    ∀ st2 : FileState, st2.readable = true → st2.exifDateTime = none →
      (get_image_datetime st).toOption = (get_image_datetime st2).toOption := by
  refine ⟨by simp [get_image_datetime, hr], by simp [get_image_datetime, hr, ReadResult.toOption], ?_⟩
  intro st2 hr2 he2
  simp [get_image_datetime, hr, hr2, he2, ReadResult.toOption]

theorem reader_unreadable_returns_none_witness :
    get_image_datetime unreadableFile = ReadResult.readError ∧
    (get_image_datetime unreadableFile).toOption = none ∧
    ∀ st2 : FileState, st2.readable = true → st2.exifDateTime = none →
      (get_image_datetime unreadableFile).toOption = (get_image_datetime st2).toOption :=
  reader_unreadable_returns_none unreadableFile rfl

/-- **C6**: for every existing folder, discovery succeeds (an empty
result is not an error), and the returned list is lexicographically
sorted by full path and is exactly the classifier-recognized subset of
the candidate files of the requested mode (all files below the folder
when recursive, the direct children otherwise): it is a permutation of
that filtered candidate list and every returned path is recognized. -/
theorem find_jpeg_files_sorted_exact (folderPath : String)
    (files : FolderFiles) (recursive : Bool) :
    ∃ l, find_jpeg_files (some files) folderPath recursive = Except.ok l ∧
      List.Sorted (fun a b => strLe a b = true) l ∧
      l.Perm ((candidatePaths folderPath files recursive).filter is_jpeg_file) ∧
      ∀ x ∈ l, is_jpeg_file x = true := by
  haveI : IsTrans String (fun a b => strLe a b = true) :=
    ⟨fun _ _ _ h1 h2 => strLe_trans h1 h2⟩
  haveI : IsTotal String (fun a b => strLe a b = true) :=
    ⟨fun a b => strLe_total a b⟩
  refine ⟨_, rfl, List.sorted_insertionSort _ _, List.perm_insertionSort _ _, ?_⟩
  intro x hx
  have hx2 := (List.perm_insertionSort (fun a b => strLe a b = true) _).subset hx
  exact List.of_mem_filter hx2

/-- **C7** (counterexample): in recursive mode, discovery over a missing
folder does not fail: `os.walk` hands the `scandir` error to its default
`onerror=None`, so the function returns an empty list. -/
theorem find_missing_recursive_cex :
    find_jpeg_files none "/no/such/folder" true = Except.ok [] := by decide

/-- **C7** (amended): for a missing folder, non-recursive discovery fails
with the not-found error (`os.listdir` raises `FileNotFoundError`), but
recursive discovery returns an empty sequence instead of failing. -/
theorem find_missing_folder_behavior (p : String) :
    find_jpeg_files none p false = Except.error FsError.notFound ∧
    find_jpeg_files none p true = Except.ok [] :=
  ⟨rfl, rfl⟩

/-- **C8** (counterexample): the classifier is not case-insensitive: the
mixed-case extension `.Jpg` is a case variant of `.jpg`, yet
`is_jpeg_file` rejects `"photo.Jpg"` while accepting `"photo.jpg"`. -/
theorem is_jpeg_file_case_cex :
    splitextExt "photo.Jpg" = ".Jpg" ∧
    is_jpeg_file "photo.jpg" = true ∧
    is_jpeg_file "photo.Jpg" = false := by decide

/-- **C8** (amended): for every path, the classifier returns true exactly
when the `os.path.splitext` extension is one of the four literal variants
`.jpg`, `.jpeg`, `.JPG`, `.JPEG` (all-lowercase or all-uppercase only);
it is a pure total function. -/
theorem is_jpeg_file_spec (p : String) :
    is_jpeg_file p = true ↔
      splitextExt p ∈ [".jpg", ".jpeg", ".JPG", ".JPEG"] := by
  simp [is_jpeg_file]

theorem invalid_day_fails_and_batch_continues_witness :
    transformDatetime ⟨2020, 2, 29, 11, 30, 0⟩ 2023 (some 2) = none ∧
    process_folder (some demoFolder) "photos" 2023 (some 2) none false false =
      Except.ok ((1, 1, 2),
        [Effect.save "photos/b.jpg" 95,
          Effect.writeExif "photos/b.jpg" ⟨2023, 2, 17, 10, 0, 0⟩,
          Effect.utime "photos/b.jpg" ⟨2023, 2, 17, 10, 0, 0⟩]) :=
  invalid_day_fails_and_batch_continues ⟨2020, 2, 29, 11, 30, 0⟩ 2023 2
    (by decide)

theorem processStep_one_counter (folder : Option FolderFiles)
    (folderPath : String) (newYear : Nat) (newMonth : Option Nat)
    (outputFolder : Option String) (recursive : Bool)
    (a : Nat × Nat × List Effect) (fp : String) :
    (processStep folder folderPath newYear newMonth outputFolder recursive a fp).1 +
      (processStep folder folderPath newYear newMonth outputFolder recursive a fp).2.1 =
      a.1 + a.2.1 + 1 := by
  simp only [processStep]
  split
  all_goals simp
  all_goals omega

theorem foldl_processStep_counts (folder : Option FolderFiles)
    (folderPath : String) (newYear : Nat) (newMonth : Option Nat)
    (outputFolder : Option String) (recursive : Bool) :
    ∀ (l : List String) (a : Nat × Nat × List Effect),
      (l.foldl (processStep folder folderPath newYear newMonth outputFolder recursive) a).1 +
        (l.foldl (processStep folder folderPath newYear newMonth outputFolder recursive) a).2.1 =
        a.1 + a.2.1 + l.length := by
  intro l
  induction l with
  | nil => intro a; simp
  | cons x xs ih =>
    intro a
    simp only [List.foldl_cons, List.length_cons]
    rw [ih]
    rw [processStep_one_counter]
    omega

/-- **C9**: with the dry-run flag set, a batch run performs no filesystem
mutation whatsoever, whatever the folder contents and per-file outcomes:
either it raises an error before mutating anything (a discovery failure,
or the uncaught `ValueError` of the read-only dry-run loop, both of which
propagate with an empty mutation trace), or it completes and returns a
report with an empty effect trace and zero success/failure counts. -/
theorem dry_run_has_no_effects (folder : Option FolderFiles)
    (folderPath : String) (newYear : Nat) (newMonth : Option Nat)
    (outputFolder : Option String) (recursive : Bool) :
    (∃ err, process_folder folder folderPath newYear newMonth outputFolder recursive true =
        Except.error err) ∨
      ∃ n, process_folder folder folderPath newYear newMonth outputFolder recursive true =
        Except.ok ((0, 0, n), []) := by
  cases folder with
  | none =>
    cases recursive with
    | false => exact Or.inl ⟨FsError.notFound, rfl⟩
    | true => exact Or.inr ⟨0, rfl⟩
  | some files =>
    by_cases hE :
        (sortStrings ((candidatePaths folderPath files recursive).filter is_jpeg_file)).isEmpty = true
    · exact Or.inr ⟨0, by simp [process_folder, find_jpeg_files, hE]⟩
    · cases hDC : dryRunCheck (some files) folderPath newYear newMonth
          (sortStrings ((candidatePaths folderPath files recursive).filter is_jpeg_file)) with
      | error err =>
        exact Or.inl ⟨err, by simp [process_folder, find_jpeg_files, hE, hDC]⟩
      | ok u =>
        exact Or.inr
          ⟨(sortStrings ((candidatePaths folderPath files recursive).filter is_jpeg_file)).length,
            by simp [process_folder, find_jpeg_files, hE, hDC]⟩

/-- **C10**: whenever a batch run over an existing folder returns a
`BatchResult` triple, the total equals the number of discovered files;
in non-dry-run mode the success and failure counts add up to the total,
and in dry-run mode the triple is `(0, 0, total)`.  All counts are
naturals, hence non-negative. -/
theorem process_folder_counts (files : FolderFiles) (folderPath : String)
    (newYear : Nat) (newMonth : Option Nat) (outputFolder : Option String)
    (recursive dryRun : Bool) (s e t : Nat) (effs : List Effect)
    (h : process_folder (some files) folderPath newYear newMonth outputFolder
        recursive dryRun = Except.ok ((s, e, t), effs)) :
    (dryRun = false → s + e = t) ∧
    (dryRun = true → s = 0 ∧ e = 0) ∧
    ∃ l, find_jpeg_files (some files) folderPath recursive = Except.ok l ∧
      t = l.length := by
  simp only [process_folder, find_jpeg_files] at h
  by_cases hE :
      (sortStrings ((candidatePaths folderPath files recursive).filter is_jpeg_file)).isEmpty = true
  · rw [if_pos hE] at h
    simp only [Except.ok.injEq, Prod.mk.injEq] at h
    obtain ⟨⟨hs, he2, ht⟩, -⟩ := h
    subst hs; subst he2; subst ht
    refine ⟨fun _ => rfl, fun _ => ⟨rfl, rfl⟩, _, rfl, ?_⟩
    rw [List.isEmpty_iff] at hE
    simp [hE]
  · rw [if_neg hE] at h
    cases dryRun with
    | true =>
      rw [if_pos rfl] at h
      cases hDC : dryRunCheck (some files) folderPath newYear newMonth
          (sortStrings ((candidatePaths folderPath files recursive).filter is_jpeg_file)) with
      | error err => rw [hDC] at h; simp at h
      | ok u =>
        rw [hDC] at h
        simp only [Except.ok.injEq, Prod.mk.injEq] at h
        obtain ⟨⟨hs, he2, ht⟩, -⟩ := h
        subst hs; subst he2; subst ht
        exact ⟨fun hcontra => Bool.noConfusion hcontra, fun _ => ⟨rfl, rfl⟩, _, rfl, rfl⟩
    | false =>
      rw [if_neg (by decide)] at h
      simp only [Except.ok.injEq, Prod.mk.injEq] at h
      obtain ⟨⟨hs, he2, ht⟩, -⟩ := h
      refine ⟨fun _ => ?_, fun hcontra => Bool.noConfusion hcontra, _, rfl, ht.symm⟩
      have hc := foldl_processStep_counts (some files) folderPath newYear newMonth
        outputFolder recursive
        (sortStrings ((candidatePaths folderPath files recursive).filter is_jpeg_file))
        (0, 0, [])
      rw [← hs, ← he2, ← ht]
      simpa using hc

theorem process_folder_counts_witness :
    ((false : Bool) = false → 1 + 1 = 2) ∧
    ((false : Bool) = true → 1 = 0 ∧ 1 = 0) ∧
    ∃ l, find_jpeg_files (some demoFolder) "photos" false = Except.ok l ∧
      2 = l.length :=
  process_folder_counts demoFolder "photos" 2023 (some 2) none false false
    1 1 2
    [Effect.save "photos/b.jpg" 95,
      Effect.writeExif "photos/b.jpg" ⟨2023, 2, 17, 10, 0, 0⟩,
      Effect.utime "photos/b.jpg" ⟨2023, 2, 17, 10, 0, 0⟩]
    (by decide)

end JpegDate
